import Mathlib

/-!
Verification of the lugnut OTP library (HOTP / TOTP engine).

This file is a shallow embedding of the library's core OTP code:

* `src/lib.rs` — `digest` (HMAC over an 8-byte big-endian counter),
  `generate` (dynamic truncation + decimal rendering),
  `verify_delta` (windowed verification used by the TOTP engine);
* `src/hotp/mod.rs` — `generate_root`, `verify_delta_root`, and the
  `Hotp` builder;
* `src/totp/mod.rs` — the `Totp` builder, `get_counter`, `generate`
  and `verify`.

Machine integers are modelled as `Nat`.  Byte sequences (Rust `Vec<u8>`
and the UTF-8 bytes of Rust `String`s) are modelled as `List Nat` whose
entries are below 256; every operation that the Rust code performs on a
byte keeps this invariant by construction (`% 256` at each byte
extraction).  Rust `Result<T, GenerationError>` is `Except
GenerationError T`.  `u64` subtraction in `Totp::verify` is modelled
with its release-mode wrapping semantics (`u64_wrapping_sub`), and the
`duration_since(..).unwrap()` panic in `Totp::get_counter` is modelled
by an `Option` result.  The `SystemTime::now()` read in
`Totp::get_counter` is modelled by an explicit `now` parameter (seconds
since the epoch), since the `time` field of `Totp` is always 0 (the
struct has no setter for it).

Every call of the HOTP/TOTP code into `digest` fixes
`Algorithm::Sha1`, so the digest provider is embedded specialised to
HMAC-SHA-1; `get_hmac`'s error path (`InvalidKeyLength`) is dead code
for HMAC, which accepts keys of every length (`new_varkey` never
fails), so `digest` is embedded as a total function.
-/

set_option maxRecDepth 40000
set_option maxHeartbeats 4000000

/-- UTF-8 bytes of a string literal (Rust `str::as_bytes`); all strings
appearing in the claims are ASCII, where code points and bytes agree. -/
def bytes (s : String) : List Nat := s.data.map Char.toNat

/-! ### SHA-1 and HMAC-SHA-1 (the keyed-hash primitive behind `digest`) -/

/-- 32-bit left rotation. -/
def rotl32 (n x : Nat) : Nat := ((x <<< n) ||| (x >>> (32 - n))) % 2 ^ 32

/-- Big-endian byte serialisation of `v` into `n` bytes (low `8*n` bits). -/
def toBytesBE (n v : Nat) : List Nat :=
  (List.range n).map (fun i => (v >>> (8 * (n - 1 - i))) % 256)

/-- A 32-bit word from four big-endian bytes. -/
def beWord (b0 b1 b2 b3 : Nat) : Nat :=
  ((b0 % 256) <<< 24) ||| ((b1 % 256) <<< 16) ||| ((b2 % 256) <<< 8) ||| (b3 % 256)

/-- SHA-1 round constants. -/
def sha1K (t : Nat) : Nat :=
  if t < 20 then 0x5A827999 else if t < 40 then 0x6ED9EBA1
  else if t < 60 then 0x8F1BBCDC else 0xCA62C1D6

/-- SHA-1 round functions (Ch, Parity, Maj, Parity). -/
def sha1F (t b c d : Nat) : Nat :=
  if t < 20 then (b &&& c) ||| ((b ^^^ 0xFFFFFFFF) &&& d)
  else if t < 40 then b ^^^ c ^^^ d
  else if t < 60 then (b &&& c) ||| (b &&& d) ||| (c &&& d)
  else b ^^^ c ^^^ d

/-- The 80-word SHA-1 message schedule of one 64-byte block. -/
def sha1Schedule (block : List Nat) : List Nat :=
  let w16 := (List.range 16).map (fun i =>
    beWord (block.getD (4 * i) 0) (block.getD (4 * i + 1) 0)
      (block.getD (4 * i + 2) 0) (block.getD (4 * i + 3) 0))
  (List.range 64).foldl (fun w _ =>
    let i := w.length
    w ++ [rotl32 1 ((w.getD (i - 3) 0) ^^^ (w.getD (i - 8) 0) ^^^
      (w.getD (i - 14) 0) ^^^ (w.getD (i - 16) 0))]) w16

/-- The five 32-bit SHA-1 chaining words. -/
structure Sha1State where
  a0 : Nat
  b0 : Nat
  c0 : Nat
  d0 : Nat
  e0 : Nat

/-- SHA-1 initial state. -/
def sha1Init : Sha1State := ⟨0x67452301, 0xEFCDAB89, 0x98BADCFE, 0x10325476, 0xC3D2E1F0⟩

/-- SHA-1 compression of one 64-byte block. -/
def sha1Compress (st : Sha1State) (block : List Nat) : Sha1State :=
  let w := sha1Schedule block
  let r := (List.range 80).foldl (fun (s : Nat × Nat × Nat × Nat × Nat) (t : Nat) =>
      let temp := (rotl32 5 s.1 + sha1F t s.2.1 s.2.2.1 s.2.2.2.1 + s.2.2.2.2 +
        sha1K t + w.getD t 0) % 2 ^ 32
      (temp, s.1, rotl32 30 s.2.1, s.2.2.1, s.2.2.2.1))
    (st.a0, st.b0, st.c0, st.d0, st.e0)
  ⟨(st.a0 + r.1) % 2 ^ 32, (st.b0 + r.2.1) % 2 ^ 32, (st.c0 + r.2.2.1) % 2 ^ 32,
    (st.d0 + r.2.2.2.1) % 2 ^ 32, (st.e0 + r.2.2.2.2) % 2 ^ 32⟩

/-- SHA-1 padding: `0x80`, zeros to 56 mod 64, then the 64-bit bit length. -/
def sha1Pad (msg : List Nat) : List Nat :=
  let len := msg.length
  msg ++ [0x80] ++ List.replicate ((119 - len % 64) % 64) 0 ++ toBytesBE 8 (8 * len)

/-- The SHA-1 digest (20 bytes) of a byte sequence. -/
def sha1 (msg : List Nat) : List Nat :=
  let padded := sha1Pad msg
  let st := (List.range (padded.length / 64)).foldl
    (fun s i => sha1Compress s ((padded.drop (64 * i)).take 64)) sha1Init
  toBytesBE 4 st.a0 ++ toBytesBE 4 st.b0 ++ toBytesBE 4 st.c0 ++
    toBytesBE 4 st.d0 ++ toBytesBE 4 st.e0

/-- HMAC-SHA-1 (RFC 2104): keys longer than the 64-byte block are
hashed first, then zero-padded to the block size. -/
def hmacSha1 (key msg : List Nat) : List Nat :=
  let k0 := if 64 < key.length then sha1 key else key
  let kp := k0 ++ List.replicate (64 - k0.length) 0
  sha1 ((kp.map (fun b => b ^^^ 0x5C)) ++ sha1 ((kp.map (fun b => b ^^^ 0x36)) ++ msg))

/-! ### `src/lib.rs` -/

/-- The error enum of `src/lib.rs` (`InvalidKeyLength`,
`FailedToGenerateOTP`).  `src/hotp/mod.rs:92` additionally names a
constructor `FailedToGenerateHOTP` that the enum in `src/lib.rs` does
not declare; it is kept here as a third constructor so that each
source function errors with exactly the constructor its text names. -/
inductive GenerationError where
  | InvalidKeyLength : GenerationError
  | FailedToGenerateOTP : GenerationError
  | FailedToGenerateHOTP : GenerationError
deriving DecidableEq

instance {e a : Type} [DecidableEq e] [DecidableEq a] : DecidableEq (Except e a) := fun x y =>
  match x, y with
  | Except.ok u, Except.ok v =>
    if h : u = v then isTrue (by rw [h]) else isFalse (by intro hc; cases hc; exact h rfl)
  | Except.error u, Except.error v =>
    if h : u = v then isTrue (by rw [h]) else isFalse (by intro hc; cases hc; exact h rfl)
  | Except.ok _, Except.error _ => isFalse (by intro hc; cases hc)
  | Except.error _, Except.ok _ => isFalse (by intro hc; cases hc)

/-- `digest` of `src/lib.rs:61-91`: serialises the counter into an
8-byte big-endian buffer (`buf[7-i] = tmp & 0xff; tmp >>= 8`, i.e. the
low 64 bits of the `u128` counter) and applies the keyed hash.  Every
caller in the HOTP/TOTP engine passes `Algorithm::Sha1`, so the
embedding fixes HMAC-SHA-1; the `InvalidKeyLength` error path is dead
(HMAC's `new_varkey` accepts every key length), so the function is
total. -/
def digest (secret : List Nat) (counter : Nat) : List Nat :=
  hmacSha1 secret (toBytesBE 8 counter)

/-- Dynamic truncation, the shared body of `generate`
(`src/lib.rs:158-184`) and `generate_root` (`src/hotp/mod.rs:63-89`):
`offset` is the low nibble of the last digest byte (0 if the digest is
empty), and each of the four byte reads at `offset .. offset+3` is an
`if let Some(o) = digest.get(..)` that contributes 0 when out of
bounds. -/
def truncCode (dg : List Nat) : Nat :=
  let offset : Nat := match dg.getLast? with
    | some o => o &&& 0xf
    | none => 0
  let no_offset : Nat := match dg[offset]? with
    | some o => (o &&& 0x7f) <<< 24
    | none => 0
  let one_offset : Nat := match dg[offset + 1]? with
    | some o => (o &&& 0xff) <<< 16
    | none => 0
  let two_offset : Nat := match dg[offset + 2]? with
    | some o => (o &&& 0xff) <<< 8
    | none => 0
  let three_offset : Nat := match dg[offset + 3]? with
    | some o => o &&& 0xff
    | none => 0
  no_offset ||| one_offset ||| two_offset ||| three_offset

/-- ASCII byte of a decimal digit. -/
def digitByte (n : Nat) : Nat := 48 + n

/-- Fuel-driven decimal writer (the fuel only bounds recursion; with
fuel `> n` it is the plain base-10 expansion, most significant digit
first, as produced by Rust's `u32::to_string`). -/
def natDecimalAux : Nat → Nat → List Nat
  | 0, _ => []
  | fuel + 1, n =>
    if n < 10 then [digitByte n]
    else natDecimalAux fuel (n / 10) ++ [digitByte (n % 10)]

/-- The decimal (ASCII) representation of a natural number, as Rust's
`to_string` renders a `u32`. -/
def natDecimal (n : Nat) : List Nat := natDecimalAux (n + 1) n

/-- `format!("{:0>width$}", s, width)`: left-pad with `'0'` to `width`. -/
def padLeft (l : List Nat) (w : Nat) : List Nat :=
  List.replicate (w - l.length) (digitByte 0) ++ l

/-- The rendering step shared by `generate` (`src/lib.rs:189-193`) and
`generate_root` (`src/hotp/mod.rs:94-102`): zero-pad the decimal form
of `code` to `digits` and keep the last `digits` bytes
(`&padded[padded.len()-digits..]`). -/
def render (code digits : Nat) : List Nat :=
  let padded := padLeft (natDecimal code) digits
  padded.drop (padded.length - digits)

/-- `generate` of `src/lib.rs:152-195`: dynamic truncation of the
supplied digest followed by decimal rendering; errors with
`FailedToGenerateOTP` when the truncated 31-bit integer is 0.  The
`key` and `counter` parameters are unused by the source body. -/
def generate (key : List Nat) (counter : Nat) (digits : Nat) (digest_hash : List Nat) :
    Except GenerationError (List Nat) :=
  let code := truncCode digest_hash
  if code = 0 then Except.error GenerationError.FailedToGenerateOTP
  else Except.ok (render code digits)

/-- The loop of `verify_delta` (`src/lib.rs:210-215`):
`for _ in counter..=counter + window` runs `window + 1` times, and each
iteration calls `generate(key, counter, ..)?` with the *fixed*
`counter` (not a loop variable), propagating a generation error with
`?`. -/
def verifyDeltaLoop (token key : List Nat) (counter digits : Nat) (digest_hash : List Nat) :
    Nat → Except GenerationError Bool
  | 0 => Except.ok false
  | n + 1 =>
    match generate key counter digits digest_hash with
    | Except.error e => Except.error e
    | Except.ok test_otp =>
      if test_otp = token then Except.ok true
      else verifyDeltaLoop token key counter digits digest_hash n

/-- `verify_delta` of `src/lib.rs:198-219`: length check first
(`token.len() as u32 != digits`, the cast being the identity for
lengths below `2^32`), then the search loop. -/
def verify_delta (token key : List Nat) (counter digits window : Nat)
    (digest_hash : List Nat) : Except GenerationError Bool :=
  if token.length ≠ digits then Except.ok false
  else verifyDeltaLoop token key counter digits digest_hash (window + 1)

/-! ### `src/hotp/mod.rs` -/

/-- `generate_root` of `src/hotp/mod.rs:50-104`: digits default to 6,
the digest defaults to `digest(key, counter, Sha1)` when no override is
supplied, and the zero truncation code errors with the
`FailedToGenerateHOTP` constructor named at `src/hotp/mod.rs:92`. -/
def generate_root (key : List Nat) (counter : Nat) (digits : Option Nat)
    (digest_arg : Option (List Nat)) : Except GenerationError (List Nat) :=
  let defined_digits := digits.getD 6
  let defined_digest := digest_arg.getD (digest key counter)
  let code := truncCode defined_digest
  if code = 0 then Except.error GenerationError.FailedToGenerateHOTP
  else Except.ok (render code defined_digits)

/-- The loop of `verify_delta_root` (`src/hotp/mod.rs:128-139`) over the
list of counters `counter..=counter+window`: each candidate is produced
by `generate_root(key, i, Some(digits), Some(defined_digest))` — note
the digest override, fixed for the whole search — and a generation
error is swallowed by `if let Ok(otp) = .. else String::from("")`,
turning the candidate into the empty string. -/
def hotpSearch (token key : List Nat) (defined_digits : Nat) (defined_digest : List Nat) :
    List Nat → Bool
  | [] => false
  | i :: rest =>
    let test_otp := match generate_root key i (some defined_digits) (some defined_digest) with
      | Except.ok otp => otp
      | Except.error _ => []
    if test_otp = token then true
    else hotpSearch token key defined_digits defined_digest rest

/-- `verify_delta_root` of `src/hotp/mod.rs:107-143`: digits default to
6 and the window to 10; the digest is resolved *before* the token
length check (`src/hotp/mod.rs:118-122` precede line 124) and is then
reused, via the `Some(defined_digest.clone())` override, for every
counter `i` of the search. -/
def verify_delta_root (token key : List Nat) (counter : Nat)
    (digits window : Option Nat) (digest_arg : Option (List Nat)) :
    Except GenerationError Bool :=
  let defined_digits := digits.getD 6
  let defined_window := window.getD 10
  let defined_digest := digest_arg.getD (digest key counter)
  if token.length ≠ defined_digits then Except.ok false
  else Except.ok (hotpSearch token key defined_digits defined_digest
    ((List.range (defined_window + 1)).map (counter + ·)))

/-- The `Hotp` builder struct of `src/hotp/mod.rs:3-9`. -/
structure Hotp where
  key : List Nat
  counter : Nat
  window : Option Nat
  digits : Option Nat
  digest : Option (List Nat)

/-- `Hotp::new`. -/
def Hotp.new (key : List Nat) (counter : Nat) : Hotp := ⟨key, counter, none, none, none⟩

/-- `Hotp::of_length`. -/
def Hotp.of_length (h : Hotp) (n : Nat) : Hotp := { h with digits := some n }

/-- `Hotp::with_digest`. -/
def Hotp.with_digest (h : Hotp) (d : List Nat) : Hotp := { h with digest := some d }

/-- `Hotp::with_window`. -/
def Hotp.with_window (h : Hotp) (w : Nat) : Hotp := { h with window := some w }

/-- `Hotp::generate` (`src/hotp/mod.rs:32-34`). -/
def Hotp.generate (h : Hotp) : Except GenerationError (List Nat) :=
  generate_root h.key h.counter h.digits h.digest

/-- `Hotp::verify` (`src/hotp/mod.rs:35-37`). -/
def Hotp.verify (h : Hotp) (token : List Nat) : Except GenerationError Bool :=
  verify_delta_root token h.key h.counter h.digits h.window h.digest

/-! ### `src/totp/mod.rs` -/

/-- Wrapping `u64` subtraction: the release-mode semantics of
`counter - self.window` at `src/totp/mod.rs:130` (a debug build panics
on underflow instead). -/
def u64_wrapping_sub (a b : Nat) : Nat :=
  (a % 2 ^ 64 + (2 ^ 64 - b % 2 ^ 64)) % 2 ^ 64

/-- The `Totp` builder struct of `src/totp/mod.rs:5-11`.  `Totp::new`
fixes `time = 0` and `step = 30`, and the struct has no setter for
either, so every instance keeps them. -/
structure Totp where
  epoch_time_offset : Nat
  time : Nat
  step : Nat
  window : Nat
  digest : List Nat

/-- `Totp::new` (`src/totp/mod.rs:26-34`). -/
def Totp.new : Totp := ⟨0, 0, 30, 0, []⟩

/-- `Totp::with_epoch_time_offset`. -/
def Totp.with_epoch_time_offset (t : Totp) (offset : Nat) : Totp :=
  { t with epoch_time_offset := offset }

/-- `Totp::with_window`. -/
def Totp.with_window (t : Totp) (w : Nat) : Totp := { t with window := w }

/-- `Totp::with_digest`. -/
def Totp.with_digest (t : Totp) (d : List Nat) : Totp := { t with digest := d }

/-- Alias for the top-level `digest` of `src/lib.rs`, needed inside the
dotted `Totp.*` declarations below, where the plain name `digest` would
resolve to the `digest` field of the `Totp` struct. -/
def digestFn : List Nat → Nat → List Nat := digest

/-- Alias for the top-level `generate` of `src/lib.rs`, needed inside
`Totp.generate`, where the plain name `generate` would resolve to the
declaration itself. -/
def generateFn : List Nat → Nat → Nat → List Nat → Except GenerationError (List Nat) :=
  generate

/-- `Totp::get_counter` (`src/totp/mod.rs:146-158`).  `now` is the
injected value of `SystemTime::now()` in whole seconds;
`duration_since(start).unwrap()` panics when `start` is in the future,
modelled by `none`. -/
def Totp.get_counter (t : Totp) (now : Nat) : Option Nat :=
  let endTime := if t.time = 0 then now else t.time
  let start := t.epoch_time_offset
  if start ≤ endTime then some ((endTime - start) / t.step) else none

/-- `Totp::generate` (`src/totp/mod.rs:104-112`): hard-codes 6 digits
and (via `digest(.., Algorithm::Sha1)`) HMAC-SHA-1; an empty `digest`
field means the real digest of the derived counter is used. -/
def Totp.generate (t : Totp) (now : Nat) (key : List Nat) :
    Option (Except GenerationError (List Nat)) :=
  match t.get_counter now with
  | none => none
  | some counter =>
    let hash := if t.digest.isEmpty then digestFn key counter else t.digest
    some (generateFn key counter 6 hash)

/-- `Totp::verify` (`src/totp/mod.rs:124-144`): computes
`windowed_counter = (counter - self.window) as u128` with `u64`
subtraction (wrapping, not clamped), resolves the digest once at
`windowed_counter`, and delegates to `verify_delta` with 6 digits and
window `self.window + self.window`. -/
def Totp.verify (t : Totp) (now : Nat) (token key : List Nat) :
    Option (Except GenerationError Bool) :=
  match t.get_counter now with
  | none => none
  | some counter =>
    let windowed_counter := u64_wrapping_sub counter t.window
    let hash := if t.digest.isEmpty then digestFn key windowed_counter else t.digest
    some (verify_delta token key windowed_counter 6 (t.window + t.window) hash)

/-! ### Spec-side definitions -/

/-- Modelled from the spec (§4.2, claim C6): the RFC 4226 dynamic
truncation integer, written exactly as the claim states it —
`offset = (last byte) & 0x0F`, then
`code = ((b0 & 0x7F) << 24) | (b1 << 16) | (b2 << 8) | b3` with
`b0..b3 = digest[offset..offset+4]` read without bounds fallbacks. -/
def dtSpecCode (dg : List Nat) : Nat :=
  let offset := (dg.getD (dg.length - 1) 0) &&& 0xf
  (((dg.getD offset 0) &&& 0x7f) <<< 24) ||| ((dg.getD (offset + 1) 0) <<< 16) |||
    ((dg.getD (offset + 2) 0) <<< 8) ||| (dg.getD (offset + 3) 0)

/-! ### Decimal-rendering lemmas -/

theorem natDecimalAux_mono : ∀ (f g n : Nat), n < f → n < g →
    natDecimalAux f n = natDecimalAux g n := by
  intro f
  induction f with
  | zero => intro g n h; omega
  | succ f ih =>
    intro g n hf hg
    match g, hg with
    | g' + 1, _ =>
      show natDecimalAux (f + 1) n = natDecimalAux (g' + 1) n
      simp only [natDecimalAux]
      by_cases h10 : n < 10
      · simp [h10]
      · have hdiv : n / 10 < n := Nat.div_lt_self (by omega) (by omega)
        simp only [h10, if_false]
        rw [ih g' (n / 10) (by omega) (by omega)]

theorem natDecimal_eq (n : Nat) : natDecimal n =
    if n < 10 then [digitByte n] else natDecimal (n / 10) ++ [digitByte (n % 10)] := by
  show natDecimalAux (n + 1) n = _
  rw [natDecimalAux]
  by_cases h10 : n < 10
  · simp [h10]
  · have hdiv : n / 10 < n := Nat.div_lt_self (by omega) (by omega)
    simp only [h10, if_false]
    rw [natDecimalAux_mono n (n / 10 + 1) (n / 10) (by omega) (by omega)]
    rfl

theorem natDecimal_lt_ten {n : Nat} (h : n < 10) : natDecimal n = [digitByte n] := by
  rw [natDecimal_eq]; simp [h]

theorem natDecimal_length_le : ∀ (d n : Nat), n < 10 ^ (d + 1) →
    (natDecimal n).length ≤ d + 1 := by
  intro d
  induction d with
  | zero =>
    intro n h
    rw [natDecimal_lt_ten (by omega)]
    simp
  | succ d ih =>
    intro n h
    by_cases h10 : n < 10
    · rw [natDecimal_lt_ten h10]; simp
    · rw [natDecimal_eq]
      simp only [h10, if_false, List.length_append, List.length_cons, List.length_nil]
      have hd : n / 10 < 10 ^ (d + 1) := by
        rw [Nat.div_lt_iff_lt_mul (by omega)]
        calc n < 10 ^ (d + 1 + 1) := h
        _ = 10 ^ (d + 1) * 10 := by rw [Nat.pow_succ]
      have := ih (n / 10) hd
      omega

theorem padLeft_of_le {X : List Nat} {d : Nat} (h : d ≤ X.length) : padLeft X d = X := by
  simp [padLeft, Nat.sub_eq_zero_of_le h]

theorem natDecimal_pad_snoc (d r : Nat) (hd : 1 ≤ d) :
    padLeft (natDecimal (r / 10)) d ++ [digitByte (r % 10)] = padLeft (natDecimal r) (d + 1) := by
  by_cases hrten : r < 10
  · have h0 : r / 10 = 0 := Nat.div_eq_of_lt hrten
    rw [h0, natDecimal_lt_ten (by omega : (0:Nat) < 10), natDecimal_lt_ten hrten,
      Nat.mod_eq_of_lt hrten]
    simp only [padLeft, List.length_cons, List.length_nil, List.append_nil]
    rw [(by omega : d - (0 + 1) = d - 1), (by omega : d + 1 - (0 + 1) = d),
      ← List.replicate_succ', (by omega : d - 1 + 1 = d)]
  · conv_rhs => rw [natDecimal_eq, if_neg hrten]
    simp only [padLeft, List.length_append, List.length_cons, List.length_nil,
      List.append_assoc]
    congr 2
    omega

theorem natDecimal_split : ∀ (d : Nat), 1 ≤ d → ∀ (m : Nat), 10 ^ d ≤ m →
    natDecimal m = natDecimal (m / 10 ^ d) ++ padLeft (natDecimal (m % 10 ^ d)) d := by
  intro d
  induction d with
  | zero => omega
  | succ d ih =>
    intro _ m hm
    by_cases hd0 : d = 0
    · subst hd0
      have h1 : (10 : Nat) ^ (0 + 1) = 10 := by norm_num
      rw [h1] at hm
      simp only [h1]
      have h10 : ¬ m < 10 := by omega
      rw [natDecimal_eq, if_neg h10, natDecimal_lt_ten (Nat.mod_lt _ (by omega))]
      simp [padLeft]
    · have hd1 : 1 ≤ d := by omega
      have h10 : ¬ m < 10 := by
        have : (10 : Nat) ≤ 10 ^ (d + 1) := by
          calc (10 : Nat) = 10 ^ 1 := (Nat.pow_one 10).symm
          _ ≤ 10 ^ (d + 1) := Nat.pow_le_pow_right (by omega) (by omega)
        omega
      have hmd : 10 ^ d ≤ m / 10 := by
        rw [Nat.le_div_iff_mul_le (by omega)]
        calc 10 ^ d * 10 = 10 ^ (d + 1) := (Nat.pow_succ 10 d).symm
        _ ≤ m := hm
      rw [natDecimal_eq, if_neg h10, ih hd1 (m / 10) hmd]
      rw [Nat.div_div_eq_div_mul, (by ring : 10 * 10 ^ d = 10 ^ (d + 1))]
      rw [List.append_assoc]
      congr 1
      have hr10 : m % 10 ^ (d + 1) % 10 = m % 10 :=
        Nat.mod_mod_of_dvd m (Dvd.intro (10 ^ d) (by ring))
      have hrdiv : m % 10 ^ (d + 1) / 10 = m / 10 % 10 ^ d := by
        rw [(by ring : (10:Nat) ^ (d + 1) = 10 * 10 ^ d), Nat.mod_mul_right_div_self]
      rw [← hrdiv, ← hr10]
      exact natDecimal_pad_snoc d (m % 10 ^ (d + 1)) hd1

theorem padLeft_length (l : List Nat) (w : Nat) : (padLeft l w).length = max w l.length := by
  simp only [padLeft, List.length_append, List.length_replicate]
  omega

theorem render_length (code d : Nat) : (render code d).length = d := by
  simp only [render, List.length_drop, padLeft_length]
  omega

theorem render_eq_mod (code d : Nat) (hd : 1 ≤ d) :
    render code d = padLeft (natDecimal (code % 10 ^ d)) d := by
  by_cases h : code < 10 ^ d
  · rw [Nat.mod_eq_of_lt h]
    have hlen : (natDecimal code).length ≤ d := by
      have := natDecimal_length_le (d - 1) code (by rwa [(by omega : d - 1 + 1 = d)])
      omega
    simp only [render, padLeft_length]
    rw [(by omega : max d (natDecimal code).length - d = 0), List.drop_zero]
  · have hsplit := natDecimal_split d hd code (by omega)
    have hlow : (natDecimal (code % 10 ^ d)).length ≤ d := by
      have hlt : code % 10 ^ d < 10 ^ d := Nat.mod_lt _ (by positivity)
      have := natDecimal_length_le (d - 1) (code % 10 ^ d)
        (by rwa [(by omega : d - 1 + 1 = d)])
      omega
    have hB : (padLeft (natDecimal (code % 10 ^ d)) d).length = d := by
      rw [padLeft_length]; omega
    have hge : d ≤ (natDecimal (code / 10 ^ d) ++ padLeft (natDecimal (code % 10 ^ d)) d).length := by
      rw [List.length_append, hB]; omega
    simp only [render, hsplit, padLeft_of_le hge]
    rw [List.length_append, hB,
      (by omega : (natDecimal (code / 10 ^ d)).length + d - d = (natDecimal (code / 10 ^ d)).length)]
    exact List.drop_left _ _

/-! ### Search-loop lemmas -/

theorem byte_and_ff {b : Nat} (h : b < 256) : b &&& 0xff = b := by
  have h2 := Nat.and_pow_two_sub_one_of_lt_two_pow (show b < 2 ^ 8 by omega)
  norm_num at h2
  exact h2

theorem hotpSearch_zero_code (token key : List Nat) (d : Nat) (dg : List Nat)
    (hz : truncCode dg = 0) (ht : token ≠ []) :
    ∀ l : List Nat, hotpSearch token key d dg l = false := by
  intro l
  induction l with
  | nil => rfl
  | cons i rest ih =>
    simp only [hotpSearch, generate_root, Option.getD_some, hz, if_pos]
    rw [if_neg (fun hh => ht hh.symm)]
    exact ih

/-! ### The claims -/

/-- C2: with the RFC 4226 secret `"12345678901234567890"`, SHA-1 and 6
digits, HOTP generation produces `"755224"`, `"287082"` and `"520489"`
at counters 0, 1 and 9 — the Appendix D test vectors. -/
theorem hotp_rfc4226_vectors :
    ((Hotp.new (bytes ("12345678901234567890")) 0).of_length 6).generate =
      Except.ok (bytes ("755224")) ∧
    ((Hotp.new (bytes ("12345678901234567890")) 1).of_length 6).generate =
      Except.ok (bytes ("287082")) ∧
    ((Hotp.new (bytes ("12345678901234567890")) 9).of_length 6).generate =
      Except.ok (bytes ("520489")) :=
  ⟨rfl, rfl, rfl⟩

/-- C1 (code and spec diverge): `verify_delta_root` resolves the keyed
digest once, at the base `counter`, and passes it as the
`Some(defined_digest)` override to `generate_root` for every searched
counter `i` (`src/hotp/mod.rs:118-122` and `130`), so no candidate is
ever generated from the digest of `i`.  The token `"287082"` generated
at counter `c + w = 1` is therefore rejected by a verification at
counter `c = 0` with window `w = 1`, although the claim requires it to
pass. -/
theorem hotp_window_stale_digest :
    generate_root (bytes ("12345678901234567890")) 1 (some 6) none =
      Except.ok (bytes ("287082")) ∧
    verify_delta_root (bytes ("287082")) (bytes ("12345678901234567890")) 0
      (some 6) (some 1) none = Except.ok false :=
  ⟨rfl, rfl⟩

/-- C7 (code and spec diverge on the digest short-circuit): a token
whose length is not the configured digit count is rejected with
`Ok(false)` and no error — but in `verify_delta_root` the keyed digest
is still resolved before the length check runs
(`src/hotp/mod.rs:118-122` precede line 124), so the "no keyed-hash
work" part of the claim only holds for `verify_delta`
(`src/lib.rs:206-208`), whose length check is first. -/
theorem verify_length_mismatch_eval :
    verify_delta_root (bytes ("12345")) (bytes ("12345678901234567890")) 0
      none none none = Except.ok false ∧
    verify_delta (bytes ("12345")) (bytes ("12345678901234567890")) 0 6 10
      (List.replicate 20 1) = Except.ok false :=
  ⟨rfl, rfl⟩

/-- C10: HOTP generation is total over arbitrary digest overrides —
every byte read is bounds-guarded, the only possible failure is the
zero-truncation error, and the empty override yields exactly that error
rather than an out-of-bounds access. -/
theorem generate_root_total_override (key : List Nat) (c : Nat) (d : Option Nat) :
    generate_root key c d (some []) = Except.error GenerationError.FailedToGenerateHOTP ∧
    ∀ dg : List Nat, (∃ s, generate_root key c d (some dg) = Except.ok s) ∨
      generate_root key c d (some dg) = Except.error GenerationError.FailedToGenerateHOTP := by
  constructor
  · have hz : truncCode [] = 0 := by decide
    unfold generate_root
    simp only [Option.getD_some, hz, if_pos]
  · intro dg
    unfold generate_root
    simp only [Option.getD_some]
    by_cases hz : truncCode dg = 0
    · right
      rw [if_pos hz]
    · left
      exact ⟨_, by rw [if_neg hz]⟩

/-- C8: dynamic truncation producing 0 is the one and only generation
failure: `generate_root` errors (with the constructor named at
`src/hotp/mod.rs:92`) exactly when the truncated integer of the
resolved digest is 0, and succeeds otherwise; likewise `generate` of
`src/lib.rs` with its own error constructor. -/
theorem generate_zero_code_error (key : List Nat) (c : Nat) (d : Option Nat)
    (arg : Option (List Nat)) (dn : Nat) (dg : List Nat) :
    (generate_root key c d arg = Except.error GenerationError.FailedToGenerateHOTP ↔
      truncCode (arg.getD (digest key c)) = 0) ∧
    (truncCode (arg.getD (digest key c)) ≠ 0 →
      generate_root key c d arg =
        Except.ok (render (truncCode (arg.getD (digest key c))) (d.getD 6))) ∧
    (generate key c dn dg = Except.error GenerationError.FailedToGenerateOTP ↔
      truncCode dg = 0) ∧
    (truncCode dg ≠ 0 → generate key c dn dg = Except.ok (render (truncCode dg) dn)) := by
  refine ⟨⟨fun h => ?_, fun h => ?_⟩, fun h => ?_, ⟨fun h => ?_, fun h => ?_⟩, fun h => ?_⟩
  · by_contra hz
    unfold generate_root at h
    rw [if_neg hz] at h
    exact Except.noConfusion h
  · unfold generate_root
    rw [if_pos h]
  · unfold generate_root
    rw [if_neg h]
  · by_contra hz
    unfold generate at h
    rw [if_neg hz] at h
    exact Except.noConfusion h
  · unfold generate
    rw [if_pos h]
  · unfold generate
    rw [if_neg h]

/-- Witness for C8 at a concrete digest override with nonzero
truncation code. -/
theorem generate_zero_code_error_witness :
    generate_root (bytes ("key")) 0 none (some (List.range 20)) =
      Except.ok (render (truncCode (List.range 20)) 6) ∧
    generate (bytes ("key")) 0 6 (List.range 20) =
      Except.ok (render (truncCode (List.range 20)) 6) :=
  ⟨(generate_zero_code_error (bytes ("key")) 0 none (some (List.range 20)) 6
      (List.range 20)).2.1 (by decide),
   (generate_zero_code_error (bytes ("key")) 0 none (some (List.range 20)) 6
      (List.range 20)).2.2.2 (by decide)⟩

/-- C3: round trip — whenever `Hotp::generate` succeeds, a
`Hotp::verify` configured with the same key, counter and digit count
accepts the generated token, for every window. -/
theorem hotp_round_trip (key : List Nat) (c d w : Nat) (token : List Nat)
    (h : ((Hotp.new key c).of_length d).generate = Except.ok token) :
    (((Hotp.new key c).of_length d).with_window w).verify token = Except.ok true := by
  have h' : generate_root key c (some d) none = Except.ok token := h
  by_cases hz : truncCode (digest key c) = 0
  · unfold generate_root at h'
    simp only [Option.getD_none, hz, if_pos] at h'
    exact Except.noConfusion h'
  · have htok : token = render (truncCode (digest key c)) d := by
      unfold generate_root at h'
      simp only [Option.getD_none] at h'
      rw [if_neg hz] at h'
      injection h' with h''
      exact h''.symm
    subst htok
    show verify_delta_root (render (truncCode (digest key c)) d) key c (some d) (some w)
      none = Except.ok true
    unfold verify_delta_root
    simp only [Option.getD_none, Option.getD_some]
    rw [if_neg (by rw [render_length]; omega)]
    rw [List.range_succ_eq_map]
    simp only [List.map_cons]
    simp only [hotpSearch, Nat.add_zero]
    unfold generate_root
    simp only [Option.getD_some]
    rw [if_neg hz]
    simp

/-- Witness for C3 at the RFC 4226 secret, counter 0, 6 digits,
window 0. -/
theorem hotp_round_trip_witness :
    ((Hotp.new (bytes ("12345678901234567890")) 0).of_length 6).generate =
      Except.ok (bytes ("755224")) ∧
    (((Hotp.new (bytes ("12345678901234567890")) 0).of_length 6).with_window 0).verify
      (bytes ("755224")) = Except.ok true :=
  ⟨rfl, hotp_round_trip (bytes ("12345678901234567890")) 0 6 0 (bytes ("755224")) rfl⟩

/-- C5 counterexample: with the all-zero 20-byte digest override,
candidate generation fails at every searched counter
(`FailedToGenerateHOTP`), yet `verify_delta_root` returns `Ok(false)`
instead of propagating the error — the `if let Ok(..) .. else
String::from("")` at `src/hotp/mod.rs:129-135` swallows it. -/
theorem hotp_verify_swallows_error :
    generate_root (bytes ("key")) 0 (some 6) (some (List.replicate 20 0)) =
      Except.error GenerationError.FailedToGenerateHOTP ∧
    verify_delta_root (bytes ("000000")) (bytes ("key")) 0 (some 6) (some 0)
      (some (List.replicate 20 0)) = Except.ok false :=
  ⟨rfl, rfl⟩

/-- C5 (amended): inside `verify_delta_root`'s search a generation
failure is swallowed — the candidate becomes the empty string and the
verification returns `Ok(false)` when nothing matches; only
`verify_delta` (the routine the TOTP engine calls) propagates the
generation error out of its loop. -/
theorem verify_error_propagation :
    (∀ (token key : List Nat) (c d w : Nat) (dg : List Nat),
      truncCode dg = 0 → token ≠ [] →
      verify_delta_root token key c (some d) (some w) (some dg) = Except.ok false) ∧
    (∀ (token key : List Nat) (c d w : Nat) (dg : List Nat),
      truncCode dg = 0 → token.length = d →
      verify_delta token key c d w dg =
        Except.error GenerationError.FailedToGenerateOTP) := by
  constructor
  · intro token key c d w dg hz ht
    unfold verify_delta_root
    simp only [Option.getD_some]
    by_cases hlen : token.length ≠ d
    · rw [if_pos hlen]
    · rw [if_neg hlen]
      rw [hotpSearch_zero_code token key d dg hz ht]
  · intro token key c d w dg hz hlen
    unfold verify_delta
    rw [if_neg (by omega : ¬ token.length ≠ d)]
    show verifyDeltaLoop token key c d dg (w + 1) = _
    simp only [verifyDeltaLoop, generate, hz, if_pos]

/-- Witness for C5's amended statement: the swallowing branch and the
propagating branch at the zero digest. -/
theorem verify_error_propagation_witness :
    verify_delta_root (bytes ("123456")) (bytes ("key")) 5 (some 6) (some 3)
      (some (List.replicate 20 0)) = Except.ok false ∧
    verify_delta (bytes ("123456")) (bytes ("key")) 5 6 3 (List.replicate 20 0) =
      Except.error GenerationError.FailedToGenerateOTP :=
  ⟨verify_error_propagation.1 (bytes ("123456")) (bytes ("key")) 5 6 3
      (List.replicate 20 0) (by decide) (by decide),
   verify_error_propagation.2 (bytes ("123456")) (bytes ("key")) 5 6 3
      (List.replicate 20 0) (by decide) (by decide)⟩

/-! ### Bounds on the truncation components (for C6) -/

theorem and7f_shiftLeft24_lt (y : Nat) : (y &&& 0x7f) <<< 24 < 2 ^ 31 := by
  rw [Nat.shiftLeft_eq]
  calc (y &&& 0x7f) * 2 ^ 24 ≤ 0x7f * 2 ^ 24 := Nat.mul_le_mul_right _ Nat.and_le_right
  _ < 2 ^ 31 := by norm_num

theorem byte_shiftLeft16_lt {y : Nat} (hy : y < 256) : y <<< 16 < 2 ^ 31 := by
  rw [Nat.shiftLeft_eq]
  calc y * 2 ^ 16 ≤ 255 * 2 ^ 16 := Nat.mul_le_mul_right _ (by omega)
  _ < 2 ^ 31 := by norm_num

theorem byte_shiftLeft8_lt {y : Nat} (hy : y < 256) : y <<< 8 < 2 ^ 31 := by
  rw [Nat.shiftLeft_eq]
  calc y * 2 ^ 8 ≤ 255 * 2 ^ 8 := Nat.mul_le_mul_right _ (by omega)
  _ < 2 ^ 31 := by norm_num

theorem byte_lt31 {y : Nat} (hy : y < 256) : y < 2 ^ 31 := by
  calc y < 256 := hy
  _ < 2 ^ 31 := by norm_num

/-- C6: for a digest of at least 20 bytes, dynamic truncation computes
exactly the RFC 4226 formula of the claim (`truncCode dg = dtSpecCode
dg`, where `dtSpecCode` is written from the claim's words), the result
is a 31-bit unsigned integer, and on success the rendered OTP is the
decimal form of `code mod 10^digits` zero-padded to `digits`. -/
theorem dynamic_truncation_correct (key dg : List Nat) (c d : Nat)
    (hlen : 20 ≤ dg.length) (hbytes : ∀ b ∈ dg, b < 256) (hd : 1 ≤ d) :
    truncCode dg = dtSpecCode dg ∧ dtSpecCode dg < 2 ^ 31 ∧
    (dtSpecCode dg ≠ 0 →
      generate key c d dg =
        Except.ok (padLeft (natDecimal (dtSpecCode dg % 10 ^ d)) d)) := by
  have hlt : dg.length - 1 < dg.length := by omega
  have hlast : dg.getLast? = some dg[dg.length - 1] := by
    rw [List.getLast?_eq_getElem?]
    exact List.getElem?_eq_getElem hlt
  have hoff15 : dg[dg.length - 1] &&& 0xf ≤ 15 := Nat.and_le_right
  set off := dg[dg.length - 1] &&& 0xf with hoff
  have h0 : off < dg.length := by omega
  have h1 : off + 1 < dg.length := by omega
  have h2 : off + 2 < dg.length := by omega
  have h3 : off + 3 < dg.length := by omega
  have hb1 : dg[off + 1] &&& 0xff = dg[off + 1] :=
    byte_and_ff (hbytes _ (dg.getElem_mem h1))
  have hb2 : dg[off + 2] &&& 0xff = dg[off + 2] :=
    byte_and_ff (hbytes _ (dg.getElem_mem h2))
  have hb3 : dg[off + 3] &&& 0xff = dg[off + 3] :=
    byte_and_ff (hbytes _ (dg.getElem_mem h3))
  have htc : truncCode dg =
      ((dg[off] &&& 0x7f) <<< 24) ||| (dg[off + 1] <<< 16) |||
        (dg[off + 2] <<< 8) ||| dg[off + 3] := by
    simp only [truncCode, hlast, List.getElem?_eq_getElem h0, List.getElem?_eq_getElem h1,
      List.getElem?_eq_getElem h2, List.getElem?_eq_getElem h3, hb1, hb2, hb3]
  have hspec : dtSpecCode dg =
      ((dg[off] &&& 0x7f) <<< 24) ||| (dg[off + 1] <<< 16) |||
        (dg[off + 2] <<< 8) ||| dg[off + 3] := by
    simp only [dtSpecCode, List.getD_eq_getElem?_getD, List.getElem?_eq_getElem hlt,
      List.getElem?_eq_getElem h0, List.getElem?_eq_getElem h1,
      List.getElem?_eq_getElem h2, List.getElem?_eq_getElem h3, Option.getD_some]
  have heq : truncCode dg = dtSpecCode dg := by rw [htc, hspec]
  refine ⟨heq, ?_, ?_⟩
  · rw [hspec]
    exact Nat.or_lt_two_pow (Nat.or_lt_two_pow (Nat.or_lt_two_pow
      (and7f_shiftLeft24_lt _)
      (byte_shiftLeft16_lt (hbytes _ (dg.getElem_mem h1))))
      (byte_shiftLeft8_lt (hbytes _ (dg.getElem_mem h2))))
      (byte_lt31 (hbytes _ (dg.getElem_mem h3)))
  · intro hnz
    unfold generate
    rw [heq, if_neg hnz, render_eq_mod _ _ hd]

/-- Witness for C6 on the concrete 20-byte digest `0,1,…,19`. -/
theorem dynamic_truncation_correct_witness :
    truncCode (List.range 20) = dtSpecCode (List.range 20) ∧
    dtSpecCode (List.range 20) < 2 ^ 31 ∧
    generate (bytes ("k")) 0 6 (List.range 20) =
      Except.ok (padLeft (natDecimal (dtSpecCode (List.range 20) % 10 ^ 6)) 6) := by
  obtain ⟨x1, x2, x3⟩ := dynamic_truncation_correct (bytes ("k")) (List.range 20) 0 6
    (by decide) (by decide) (by decide)
  exact ⟨x1, x2, x3 (by decide)⟩

/-- C4 counterexample: at `now = 0` the derived counter is 0; with
window 1 the claim requires the search's lower bound to clamp to 0 and
the freshly generated token (counter 0, inside the claimed symmetric
range) to verify.  Instead `(counter - window) as u128` wraps to
`2^64 - 1` and verification rejects the token. -/
theorem totp_underflow_counterexample :
    (Totp.new.with_window 1).generate 0 (bytes ("12345678901234567890")) =
      some (Except.ok (bytes ("755224"))) ∧
    u64_wrapping_sub 0 1 = 2 ^ 64 - 1 ∧
    (Totp.new.with_window 1).verify 0 (bytes ("755224")) (bytes ("12345678901234567890")) =
      some (Except.ok false) :=
  ⟨rfl, by decide, rfl⟩

/-- C4 (amended): `Totp::verify` derives `counter = (now - offset) / 30`
and hands the token to `verify_delta` at the `u64`-wrapping difference
`counter - window` (panic in a debug build), with window `2w` and a
digest resolved once at that wrapped counter; for `counter < window`
the lower bound is `2^64 + counter - window`, not 0. -/
theorem totp_verify_windowed (e w : Nat) (dgl : List Nat) (now : Nat)
    (token key : List Nat) (a b a2 b2 : Nat) :
    (e ≤ now →
      (((Totp.new.with_epoch_time_offset e).with_window w).with_digest dgl).verify now token key
        = some (verify_delta token key (u64_wrapping_sub ((now - e) / 30) w) 6 (w + w)
            (if dgl.isEmpty then digest key (u64_wrapping_sub ((now - e) / 30) w) else dgl))) ∧
    (b ≤ a → a < 2 ^ 64 → u64_wrapping_sub a b = a - b) ∧
    (a2 < b2 → b2 < 2 ^ 64 → u64_wrapping_sub a2 b2 = 2 ^ 64 + a2 - b2) := by
  refine ⟨fun he => ?_, fun hba ha => ?_, fun hab hb => ?_⟩
  · show Totp.verify ⟨e, 0, 30, w, dgl⟩ now token key = _
    simp [Totp.verify, Totp.get_counter, he, digestFn]
  · unfold u64_wrapping_sub
    omega
  · unfold u64_wrapping_sub
    omega

/-- Witness for C4's amended statement: window 1 at `now = 0`, plus both
branches of the wrapping characterisation. -/
theorem totp_verify_windowed_witness :
    ((((Totp.new.with_epoch_time_offset 0).with_window 1).with_digest []).verify 0
        (bytes ("755224")) (bytes ("12345678901234567890"))
      = some (verify_delta (bytes ("755224")) (bytes ("12345678901234567890"))
          (u64_wrapping_sub ((0 - 0) / 30) 1) 6 (1 + 1)
          (if ([] : List Nat).isEmpty then
            digest (bytes ("12345678901234567890")) (u64_wrapping_sub ((0 - 0) / 30) 1)
          else ([] : List Nat)))) ∧
    u64_wrapping_sub 5 3 = 5 - 3 ∧
    u64_wrapping_sub 0 1 = 2 ^ 64 + 0 - 1 :=
  ⟨(totp_verify_windowed 0 1 [] 0 (bytes ("755224")) (bytes ("12345678901234567890"))
      5 3 0 1).1 (by decide),
   (totp_verify_windowed 0 1 [] 0 (bytes ("755224")) (bytes ("12345678901234567890"))
      5 3 0 1).2.1 (by decide) (by decide),
   (totp_verify_windowed 0 1 [] 0 (bytes ("755224")) (bytes ("12345678901234567890"))
      5 3 0 1).2.2 (by decide) (by decide)⟩

/-- C9: the TOTP interface has no digit or algorithm setter —
`Totp::generate` and `Totp::verify` pass the constant 6 (and SHA-1, via
`digest`) for every builder configuration, so every successful TOTP
code has length exactly 6, and every token whose length is not 6 is
rejected outright. -/
theorem totp_always_six_digits (e w : Nat) (dgl : List Nat) (now : Nat)
    (key token s : List Nat) :
    ((((Totp.new.with_epoch_time_offset e).with_window w).with_digest dgl).generate now key =
        some (Except.ok s) → s.length = 6) ∧
    (token.length ≠ 6 → e ≤ now →
      (((Totp.new.with_epoch_time_offset e).with_window w).with_digest dgl).verify now token key
        = some (Except.ok false)) := by
  constructor
  · intro h
    have h' : Totp.generate ⟨e, 0, 30, w, dgl⟩ now key = some (Except.ok s) := h
    by_cases he : e ≤ now
    · simp only [Totp.generate, Totp.get_counter, he, if_pos, if_true] at h'
      simp only [Option.some.injEq] at h'
      revert h'
      unfold generateFn generate
      by_cases hz : truncCode (if dgl.isEmpty then
          digestFn key ((now - e) / 30) else dgl) = 0
      · rw [if_pos hz]
        intro h''
        exact absurd h'' (by simp)
      · rw [if_neg hz]
        intro h''
        injection h'' with h'''
        rw [← h''']
        exact render_length _ _
    · simp [Totp.generate, Totp.get_counter, he] at h' 
  · intro ht he
    show Totp.verify ⟨e, 0, 30, w, dgl⟩ now token key = _
    simp [Totp.verify, Totp.get_counter, he]
    unfold verify_delta
    rw [if_pos ht]

/-- Witness for C9: a configured builder generating a 6-byte code and
rejecting a 2-byte token. -/
theorem totp_always_six_digits_witness :
    (bytes ("595078")).length = 6 ∧
    ((((Totp.new.with_epoch_time_offset 0).with_window 0).with_digest (List.range 20)).verify 0
      (bytes ("12")) (bytes ("k")) = some (Except.ok false)) :=
  ⟨(totp_always_six_digits 0 0 (List.range 20) 0 (bytes ("k")) (bytes ("12"))
      (bytes ("595078"))).1 (by rfl),
   (totp_always_six_digits 0 0 (List.range 20) 0 (bytes ("k")) (bytes ("12"))
      (bytes ("595078"))).2 (by decide) (by decide)⟩
